import Mathlib

set_option maxRecDepth 4000

/-
  Shallow embedding of src/src/mblock.c (mpool-kmod mblock module).

  External collaborators (object directory / device layer) are not in src:
  their results are passed in as explicit oracle arguments (dirRes, rwRes,
  flushRes), and the few constants and primitives the claims need are
  modelled from the spec, each marked in its doc comment.
-/

/-- Error results of the mpool core operations (merr_t keyed by errno;
Merr.ok stands for a zero merr_t, Merr.emedia for a propagated external
media or directory error code). -/
inductive Merr where
  | ok
  | einval
  | ealready
  | eagain
  | enoent
  | ebusy
  | ebug
  | emedia (code : Nat)
deriving DecidableEq

/-- Direction of a transfer, MPOOL_OP_READ or MPOOL_OP_WRITE. -/
inductive MpoolOp where
  | read
  | write
deriving DecidableEq

/-- Host page size of the targeted kernels. -/
def PAGE_SIZE : Nat := 4096

/-- PAGE_ALIGNED from the kernel headers: offset is a multiple of PAGE_SIZE. -/
def PAGE_ALIGNED (x : Nat) : Bool := x % PAGE_SIZE == 0

/-- Modulus of the unsigned 64-bit arithmetic (loff_t plus size_t) in which
the source computes the bounds sums of mblock_rw_argcheck. -/
def U64 : Nat := 2 ^ 64

/-- Modelled from the spec: the committed bit of the layout state flag word
(the state machine flag set by the directory commit primitive). -/
def PMD_LYT_COMMITTED : Nat := 1

/-- Modelled from the spec: the aborting bit of the layout state flag word
(set when a concurrent abort is racing a commit; commit must lose). -/
def PMD_LYT_ABORTING : Nat := 2

/-- Modelled from the spec: the OMF object type tag value for mblocks. -/
def OMF_OBJ_MBLOCK : Nat := 2

/-- Modelled from the spec: pmd_objid_type (defined outside src) extracts
the reserved type field encoded inside an object identifier. -/
def pmd_objid_type (objid : Nat) : Nat := (objid / 256) % 16

/-- The fields of struct pmd_layout that the mblock module reads or writes.
The capacity is owned by the directory and fixed at allocation; it is
carried here as the value pmd_layout_cap_get returns for this layout. -/
structure PmdLayout where
  eld_objid : Nat
  eld_mblen : Nat
  eld_state : Nat
  eld_refcnt : Nat
  ol_zcnt : Nat
  cap : Nat
deriving DecidableEq

/-- Device capability record (struct mpool_dev_info fields used here). -/
structure MpoolDevInfo where
  pdi_optiosz : Nat
  pdi_fua : Bool
  pdi_mclass : Nat
deriving DecidableEq

/-- Mpool descriptor: the device association the mblock module consults. -/
structure MpoolDescriptor where
  pd : MpoolDevInfo
deriving DecidableEq

/-- pmd_layout_pd_get: device of the layout (single-device pool model). -/
def pmd_layout_pd_get (mp : MpoolDescriptor) (_layout : PmdLayout) : MpoolDevInfo :=
  mp.pd

/-- pmd_layout_cap_get: capacity the directory reports for this layout. -/
def pmd_layout_cap_get (_mp : MpoolDescriptor) (layout : PmdLayout) : Nat :=
  layout.cap

/-- mblock_optimal_iosz_get from mblock.c: the optimal transfer size of the
device backing the layout. -/
def mblock_optimal_iosz_get (mp : MpoolDescriptor) (layout : PmdLayout) : Nat :=
  (pmd_layout_pd_get mp layout).pdi_optiosz

/-- Test of the committed bit in a state flag word. -/
def lyt_committed (state : Nat) : Bool :=
  Nat.land state PMD_LYT_COMMITTED != 0

/-- Test of the aborting bit in a state flag word. -/
def lyt_aborting (state : Nat) : Bool :=
  Nat.land state PMD_LYT_ABORTING != 0

/-- mblock_objid from mblock.c: the id is nonzero and its type tag is
OMF_OBJ_MBLOCK. -/
def mblock_objid (objid : Nat) : Bool :=
  objid != 0 && pmd_objid_type objid == OMF_OBJ_MBLOCK

/-- mblock2layout from mblock.c: checked conversion of the opaque handle
(null modelled as none) to the layout; none when the handle is null or its
object id fails the mblock type check. -/
def mblock2layout (mbh : Option PmdLayout) : Option PmdLayout :=
  match mbh with
  | none => none
  | some layout => if mblock_objid layout.eld_objid then some layout else none

/-- mblock_rw_argcheck from mblock.c: validates mblock_write and
mblock_read arguments against the layout, capacity and device. The two
bounds sums boff + len and len + boff are computed, as in the source, in
unsigned 64-bit arithmetic (loff_t plus size_t), so they wrap mod 2 ^ 64
for lengths near the top of the size_t range. -/
def mblock_rw_argcheck (mp : MpoolDescriptor) (layout : PmdLayout)
    (boff : Nat) (rw : MpoolOp) (len : Nat) : Merr :=
  let mblock_cap := pmd_layout_cap_get mp layout
  let opt_iosz := mblock_optimal_iosz_get mp layout
  match rw with
  | MpoolOp.read =>
    if !(PAGE_ALIGNED boff) then Merr.einval
    else if mblock_cap ≤ boff then Merr.einval
    else if (boff + len) % U64 > layout.eld_mblen then Merr.einval
    else Merr.ok
  | MpoolOp.write =>
    if boff ≠ layout.eld_mblen then Merr.einval
    else if boff % opt_iosz ≠ 0 then Merr.einval
    else if (len + boff) % U64 > mblock_cap then Merr.einval
    else Merr.ok

/-- Observable outcome of mblock_write: the returned merr_t, the layout
after the call (none when the handle did not resolve), whether the object
write lock was taken, whether pmd_layout_rw was invoked, and at which
offset. -/
structure WriteResult where
  res : Merr
  layoutAfter : Option PmdLayout
  lockTaken : Bool
  transferAttempted : Bool
  transferOffset : Option Nat
deriving DecidableEq

/-- mblock_write from mblock.c. The iovec buffers do not influence control
flow; rwRes is the result the external pmd_layout_rw raw transfer would
return when invoked. -/
def mblock_write (mp : MpoolDescriptor) (mbh : Option PmdLayout)
    (len : Nat) (rwRes : Merr) : WriteResult :=
  match mblock2layout mbh with
  | none => ⟨Merr.einval, none, false, false, none⟩
  | some layout =>
    let err := mblock_rw_argcheck mp layout layout.eld_mblen MpoolOp.write len
    if err ≠ Merr.ok then ⟨err, some layout, false, false, none⟩
    else if len == 0 then ⟨Merr.ok, some layout, false, false, none⟩
    else
      let boff := layout.eld_mblen
      if !(lyt_committed layout.eld_state) then
        if rwRes = Merr.ok then
          ⟨Merr.ok, some { layout with eld_mblen := layout.eld_mblen + len },
            true, true, some boff⟩
        else ⟨rwRes, some layout, true, true, some boff⟩
      else ⟨Merr.ealready, some layout, true, false, none⟩

/-- Observable outcome of mblock_read: mblock_read never assigns any layout
field, so layoutAfter records the layout it operated on. -/
structure ReadResult where
  res : Merr
  layoutAfter : Option PmdLayout
  lockTaken : Bool
  transferAttempted : Bool
deriving DecidableEq

/-- mblock_read from mblock.c; rwRes is the result the external
pmd_layout_rw raw transfer would return when invoked. -/
def mblock_read (mp : MpoolDescriptor) (mbh : Option PmdLayout)
    (boff : Nat) (len : Nat) (rwRes : Merr) : ReadResult :=
  match mblock2layout mbh with
  | none => ⟨Merr.einval, none, false, false⟩
  | some layout =>
    let err := mblock_rw_argcheck mp layout boff MpoolOp.read len
    if err ≠ Merr.ok then ⟨err, some layout, false, false⟩
    else if len == 0 then ⟨Merr.ok, some layout, false, false⟩
    else if lyt_committed layout.eld_state then ⟨rwRes, some layout, true, true⟩
    else ⟨Merr.eagain, some layout, true, false⟩

/-- Modelled from the spec: pmd_obj_commit (defined outside src), the
directory commit primitive: fails busy when the aborting flag is set
(abort wins the race), otherwise atomically sets the committed flag. -/
def pmd_obj_commit (layout : PmdLayout) : Merr × PmdLayout :=
  if lyt_aborting layout.eld_state then (Merr.ebusy, layout)
  else (Merr.ok, { layout with eld_state := Nat.lor layout.eld_state PMD_LYT_COMMITTED })

/-- Observable outcome of mblock_commit: the returned merr_t, the layout
after the call, whether pd_dev_flush was issued, and whether the directory
commit primitive pmd_obj_commit was invoked. -/
structure CommitResult where
  res : Merr
  layoutAfter : Option PmdLayout
  flushIssued : Bool
  dirCommitInvoked : Bool
deriving DecidableEq

/-- mblock_commit from mblock.c; flushRes is the result the external
pd_dev_flush would return when issued. -/
def mblock_commit (mp : MpoolDescriptor) (mbh : Option PmdLayout)
    (flushRes : Merr) : CommitResult :=
  match mblock2layout mbh with
  | none => ⟨Merr.einval, none, false, false⟩
  | some layout =>
    let pd := pmd_layout_pd_get mp layout
    if !pd.pdi_fua then
      if flushRes ≠ Merr.ok then ⟨flushRes, some layout, true, false⟩
      else
        let r := pmd_obj_commit layout
        ⟨r.1, some r.2, true, true⟩
    else
      let r := pmd_obj_commit layout
      ⟨r.1, some r.2, false, true⟩

/-- mblock_abort from mblock.c: resolves the handle and delegates to the
external pmd_obj_abort, whose result dirRes is propagated; the module
itself assigns no layout field. -/
def mblock_abort (mbh : Option PmdLayout) (dirRes : Merr) : Merr × Option PmdLayout :=
  match mblock2layout mbh with
  | none => (Merr.einval, none)
  | some layout => (dirRes, some layout)

/-- mblock_delete from mblock.c: resolves the handle and delegates to the
external pmd_obj_delete, whose result dirRes is propagated; the module
itself assigns no layout field. -/
def mblock_delete (mbh : Option PmdLayout) (dirRes : Merr) : Merr × Option PmdLayout :=
  match mblock2layout mbh with
  | none => (Merr.einval, none)
  | some layout => (dirRes, some layout)

/-- mblock_put from mblock.c: returns true iff the directory release
primitive pmd_obj_put was invoked (put itself returns void). -/
def mblock_put (mbh : Option PmdLayout) : Bool :=
  match mblock2layout mbh with
  | none => false
  | some _ => true

/-- struct mblock_props as filled by mblock_getprops_cmn. -/
structure MblockProps where
  mpr_objid : Nat
  mpr_alloc_cap : Nat
  mpr_write_len : Nat
  mpr_optimal_wrsz : Nat
  mpr_mclass : Nat
  mpr_iscommitted : Bool
deriving DecidableEq

/-- mblock_getprops_cmn from mblock.c: the property snapshot taken under
the shared lock. -/
def mblock_getprops_cmn (mp : MpoolDescriptor) (layout : PmdLayout) : MblockProps :=
  { mpr_objid := layout.eld_objid
    mpr_alloc_cap := pmd_layout_cap_get mp layout
    mpr_write_len := layout.eld_mblen
    mpr_optimal_wrsz := mblock_optimal_iosz_get mp layout
    mpr_mclass := (pmd_layout_pd_get mp layout).pdi_mclass
    mpr_iscommitted := lyt_committed layout.eld_state }

/-- mblock_get_props from mblock.c. -/
def mblock_get_props (mp : MpoolDescriptor) (mbh : Option PmdLayout) :
    Merr × Option MblockProps :=
  match mblock2layout mbh with
  | none => (Merr.einval, none)
  | some layout => (Merr.ok, some (mblock_getprops_cmn mp layout))

/-- Observable outcome of mblock_realloc and mblock_find_get: the returned
merr_t, the handle produced, and whether the directory was consulted
(pmd_obj_realloc respectively pmd_obj_find_get invoked) to resolve the id. -/
structure FindResult where
  res : Merr
  mbh : Option PmdLayout
  dirConsulted : Bool
deriving DecidableEq

/-- mblock_alloc_cmn from mblock.c, restricted to the realloc path (objid
nonzero): dirRes and dirLayout are the outcome of the external
pmd_obj_realloc; a success with no layout is the defensive EBUG path. -/
def mblock_alloc_cmn_realloc (dirRes : Merr) (dirLayout : Option PmdLayout) : FindResult :=
  if dirRes ≠ Merr.ok then ⟨dirRes, none, true⟩
  else
    match dirLayout with
    | none => ⟨Merr.ebug, none, true⟩
    | some layout => ⟨Merr.ok, some layout, true⟩

/-- mblock_realloc from mblock.c: rejects ids failing mblock_objid before
consulting the directory. -/
def mblock_realloc (objid : Nat) (dirRes : Merr) (dirLayout : Option PmdLayout) : FindResult :=
  if !(mblock_objid objid) then ⟨Merr.einval, none, false⟩
  else mblock_alloc_cmn_realloc dirRes dirLayout

/-- mblock_find_get from mblock.c: rejects ids failing mblock_objid before
consulting the directory; dirLayout is the outcome of the external
pmd_obj_find_get (none when the directory cannot find the object). -/
def mblock_find_get (objid : Nat) (dirLayout : Option PmdLayout) : FindResult :=
  if !(mblock_objid objid) then ⟨Merr.einval, none, false⟩
  else
    match dirLayout with
    | none => ⟨Merr.enoent, none, true⟩
    | some layout => ⟨Merr.ok, some layout, true⟩

/-- Modelled from the spec: the recognized read-ahead probe length sentinel
named MCACHE_RA_PAGES_MAX in the source TODO; its definition lives outside
src, so a concrete representative value is fixed here. -/
def MCACHE_RA_PAGES_MAX : Nat := 128

/-- A single-device pool whose device reports optimal transfer size 4096,
no FUA support, media class 0 (concrete instance for witnesses). -/
def mpX : MpoolDescriptor := ⟨⟨4096, false, 0⟩⟩

/-- A valid mblock object id: nonzero, type field equal to OMF_OBJ_MBLOCK. -/
def validId : Nat := 512

/-- A freshly allocated, uncommitted mblock layout: valid id, nothing
written, state flags clear, capacity 8192. -/
def L0 : PmdLayout := ⟨validId, 0, 0, 2, 1, 8192⟩

/-- A committed mblock layout: valid id, nothing written, committed flag
set, capacity 8192. -/
def LC : PmdLayout := ⟨validId, 0, PMD_LYT_COMMITTED, 2, 1, 8192⟩

/-- An uncommitted mblock layout with 4096 bytes already written. -/
def LW : PmdLayout := ⟨validId, 4096, 0, 2, 1, 8192⟩

/-- An uncommitted mblock layout whose written length 2048 is not a
multiple of the optimal transfer size 4096. -/
def LU : PmdLayout := ⟨validId, 2048, 0, 2, 1, 8192⟩

/-- A layout whose object id 5 fails the mblock type check. -/
def LBad : PmdLayout := ⟨5, 0, 0, 2, 1, 8192⟩

/-- mblock_rw_argcheck only ever returns ok or einval. -/
theorem argcheck_ok_or_einval (mp : MpoolDescriptor) (layout : PmdLayout)
    (boff : Nat) (rw : MpoolOp) (len : Nat) :
    mblock_rw_argcheck mp layout boff rw len = Merr.ok ∨
    mblock_rw_argcheck mp layout boff rw len = Merr.einval := by
  unfold mblock_rw_argcheck
  cases rw <;> simp only [] <;>
    (repeat' split) <;> simp

/-- Any violated write-side check makes mblock_rw_argcheck return einval. -/
theorem argcheck_write_einval (mp : MpoolDescriptor) (layout : PmdLayout)
    (boff len : Nat)
    (h : boff ≠ layout.eld_mblen ∨
      boff % mblock_optimal_iosz_get mp layout ≠ 0 ∨
      (len + boff) % U64 > pmd_layout_cap_get mp layout) :
    mblock_rw_argcheck mp layout boff MpoolOp.write len = Merr.einval := by
  by_cases h1 : boff = layout.eld_mblen
  · by_cases h2 : boff % mblock_optimal_iosz_get mp layout = 0
    · have h3 : (len + boff) % U64 > pmd_layout_cap_get mp layout := by
        rcases h with h | h | h
        · exact absurd h1 h
        · exact absurd h2 h
        · exact h
      subst h1
      simp [mblock_rw_argcheck, h2, h3]
    · subst h1
      simp [mblock_rw_argcheck, h2]
  · simp [mblock_rw_argcheck, h1]

/-- C5: the unwritten-tail check is applied uniformly for every length,
with no exemption for any sentinel (the MCACHE_RA_PAGES_MAX skip exists
only as a TODO comment in the source): for a page-aligned offset below
capacity, the read is rejected einval exactly when the 64-bit sum of
offset and length, wrapping as the source computes it, exceeds eld_mblen;
in particular lengths whose sum wraps to at most eld_mblen pass the
check. -/
theorem C5_no_sentinel_skip (mp : MpoolDescriptor) (layout : PmdLayout)
    (boff len : Nat)
    (ha : PAGE_ALIGNED boff = true)
    (hb : boff < pmd_layout_cap_get mp layout) :
    ((boff + len) % U64 > layout.eld_mblen →
      mblock_rw_argcheck mp layout boff MpoolOp.read len = Merr.einval)
    ∧ ((boff + len) % U64 ≤ layout.eld_mblen →
      mblock_rw_argcheck mp layout boff MpoolOp.read len = Merr.ok) := by
  constructor
  · intro ht
    simp [mblock_rw_argcheck, ha, Nat.not_le.mpr hb, ht]
  · intro ht
    simp [mblock_rw_argcheck, ha, Nat.not_le.mpr hb, Nat.not_lt.mpr ht]

/-- C5 witness: concrete instances of both parts of the theorem, the
second at a length that wraps the 64-bit sum past the check. -/
theorem C5_no_sentinel_skip_witness :
    mblock_rw_argcheck mpX L0 0 MpoolOp.read 4096 = Merr.einval
    ∧ mblock_rw_argcheck mpX LW 4096 MpoolOp.read (2 ^ 64 - 4096) = Merr.ok :=
  ⟨(C5_no_sentinel_skip mpX L0 0 4096 (by decide) (by decide)).1 (by decide),
   (C5_no_sentinel_skip mpX LW 4096 (2 ^ 64 - 4096) (by decide) (by decide)).2
     (by decide)⟩

/-- C5 counterexample: a read probe of exactly the sentinel length past
the written data is rejected with einval, not silently allowed as the
claim states. -/
theorem C5_counterexample :
    PAGE_ALIGNED 0 = true ∧ 0 < pmd_layout_cap_get mpX L0
    ∧ (0 + MCACHE_RA_PAGES_MAX) % U64 > L0.eld_mblen
    ∧ mblock_rw_argcheck mpX L0 0 MpoolOp.read MCACHE_RA_PAGES_MAX = Merr.einval
    ∧ mblock_rw_argcheck mpX L0 0 MpoolOp.read MCACHE_RA_PAGES_MAX ≠ Merr.ok := by
  decide

/-- C7: on a resolving handle whose device lacks FUA support, a failing
device flush makes mblock_commit return the flush error with the
directory commit primitive never invoked and the layout (hence the
committed flag) unchanged. -/
theorem C7_flush_failure_aborts_commit (mp : MpoolDescriptor)
    (mbh : Option PmdLayout) (layout : PmdLayout) (flushRes : Merr)
    (hres : mblock2layout mbh = some layout)
    (hfua : (pmd_layout_pd_get mp layout).pdi_fua = false)
    (hfl : flushRes ≠ Merr.ok) :
    mblock_commit mp mbh flushRes = ⟨flushRes, some layout, true, false⟩ := by
  simp [mblock_commit, hres, hfua, hfl]

/-- C7 witness: concrete instance of the theorem. -/
theorem C7_flush_failure_aborts_commit_witness :
    mblock_commit mpX (some L0) (Merr.emedia 5) =
      ⟨Merr.emedia 5, some L0, true, false⟩ :=
  C7_flush_failure_aborts_commit mpX (some L0) L0 (Merr.emedia 5)
    (by decide) (by decide) (by decide)

/-- C8: mblock_objid holds exactly for nonzero ids whose type tag is
OMF_OBJ_MBLOCK, and for any id failing it mblock_realloc and
mblock_find_get fail einval without consulting the directory. -/
theorem C8_id_type_safety :
    (∀ objid : Nat, mblock_objid objid = true ↔
      objid ≠ 0 ∧ pmd_objid_type objid = OMF_OBJ_MBLOCK)
    ∧ (∀ (objid : Nat) (dirRes : Merr) (dirLayout : Option PmdLayout),
        mblock_objid objid = false →
        mblock_realloc objid dirRes dirLayout = ⟨Merr.einval, none, false⟩)
    ∧ (∀ (objid : Nat) (dirLayout : Option PmdLayout),
        mblock_objid objid = false →
        mblock_find_get objid dirLayout = ⟨Merr.einval, none, false⟩) := by
  refine ⟨?_, ?_, ?_⟩
  · intro objid
    simp [mblock_objid]
  · intro objid dirRes dirLayout h
    simp [mblock_realloc, h]
  · intro objid dirLayout h
    simp [mblock_find_get, h]

/-- C8 witness: concrete instances of all three parts of the theorem. -/
theorem C8_id_type_safety_witness :
    mblock_objid 512 = true
    ∧ mblock_realloc 5 Merr.ok none = ⟨Merr.einval, none, false⟩
    ∧ mblock_find_get 5 (some L0) = ⟨Merr.einval, none, false⟩ :=
  ⟨(C8_id_type_safety.1 512).mpr (by decide),
   C8_id_type_safety.2.1 5 Merr.ok none (by decide),
   C8_id_type_safety.2.2 5 (some L0) (by decide)⟩

/-- C9: on a resolving handle, any argument-validation failure makes
mblock_write and mblock_read return the validation error with the lock
never taken, no transfer attempted, and the layout unchanged. -/
theorem C9_validation_fail_fast (mp : MpoolDescriptor)
    (mbh : Option PmdLayout) (layout : PmdLayout)
    (hres : mblock2layout mbh = some layout) :
    (∀ (len : Nat) (rwRes : Merr),
      mblock_rw_argcheck mp layout layout.eld_mblen MpoolOp.write len ≠ Merr.ok →
      mblock_write mp mbh len rwRes =
        ⟨mblock_rw_argcheck mp layout layout.eld_mblen MpoolOp.write len,
          some layout, false, false, none⟩)
    ∧ (∀ (boff len : Nat) (rwRes : Merr),
      mblock_rw_argcheck mp layout boff MpoolOp.read len ≠ Merr.ok →
      mblock_read mp mbh boff len rwRes =
        ⟨mblock_rw_argcheck mp layout boff MpoolOp.read len,
          some layout, false, false⟩) := by
  constructor
  · intro len rwRes h
    simp [mblock_write, hres, h]
  · intro boff len rwRes h
    simp [mblock_read, hres, h]

/-- C9 witness: concrete instance (write whose append offset 2048 is not
a multiple of the optimal transfer size 4096). -/
theorem C9_validation_fail_fast_witness :
    mblock_write mpX (some LU) 4096 Merr.ok =
      ⟨mblock_rw_argcheck mpX LU LU.eld_mblen MpoolOp.write 4096,
        some LU, false, false, none⟩ :=
  (C9_validation_fail_fast mpX (some LU) LU (by decide)).1 4096 Merr.ok (by decide)

/-- C10: mblock_put on a null handle, or on a handle whose id fails the
mblock type check, never invokes the directory release primitive. -/
theorem C10_put_silent_noop :
    mblock_put none = false
    ∧ (∀ layout : PmdLayout, mblock_objid layout.eld_objid = false →
        mblock_put (some layout) = false) := by
  constructor
  · rfl
  · intro layout h
    simp [mblock_put, mblock2layout, h]

/-- C10 witness: concrete instance of the second part of the theorem. -/
theorem C10_put_silent_noop_witness :
    mblock_put (some LBad) = false :=
  C10_put_silent_noop.2 LBad (by decide)

/-- C6: a supplied offset differing from eld_mblen, an append offset not a
multiple of the optimal transfer size, or a length whose 64-bit sum with
the offset, wrapping as the source computes it, exceeds capacity each make
the validation return einval, and an mblock_write hitting such a violation
at its append offset returns einval with no lock taken, no transfer
attempted, and the layout unchanged. The capacity bound is enforced only
on the wrapped sum, so lengths that wrap the sum to at most the capacity
bypass it. -/
theorem C6_write_invalid_rejected (mp : MpoolDescriptor)
    (mbh : Option PmdLayout) (layout : PmdLayout)
    (hres : mblock2layout mbh = some layout) :
    (∀ boff len : Nat,
      (boff ≠ layout.eld_mblen ∨
        boff % mblock_optimal_iosz_get mp layout ≠ 0 ∨
        (len + boff) % U64 > pmd_layout_cap_get mp layout) →
      mblock_rw_argcheck mp layout boff MpoolOp.write len = Merr.einval)
    ∧ (∀ (len : Nat) (rwRes : Merr),
      (layout.eld_mblen % mblock_optimal_iosz_get mp layout ≠ 0 ∨
        (len + layout.eld_mblen) % U64 > pmd_layout_cap_get mp layout) →
      mblock_write mp mbh len rwRes =
        ⟨Merr.einval, some layout, false, false, none⟩) := by
  constructor
  · intro boff len h
    exact argcheck_write_einval mp layout boff len h
  · intro len rwRes h
    have hchk : mblock_rw_argcheck mp layout layout.eld_mblen MpoolOp.write len
        = Merr.einval :=
      argcheck_write_einval mp layout layout.eld_mblen len (Or.inr h)
    simp [mblock_write, hres, hchk]

/-- C6 witness: concrete instances (a write of 12288 bytes overflowing the
8192-byte capacity, and a validation call with offset 4096 differing from
the zero written length). -/
theorem C6_write_invalid_rejected_witness :
    mblock_write mpX (some L0) 12288 Merr.ok =
      ⟨Merr.einval, some L0, false, false, none⟩
    ∧ mblock_rw_argcheck mpX L0 4096 MpoolOp.write 4096 = Merr.einval :=
  ⟨(C6_write_invalid_rejected mpX (some L0) L0 (by decide)).2 12288 Merr.ok
      (Or.inr (by decide)),
   (C6_write_invalid_rejected mpX (some L0) L0 (by decide)).1 4096 4096
      (Or.inl (by decide))⟩

/-- C6 counterexample: with eld_mblen 4096, optimal transfer size 4096 and
capacity 8192, a write of 2 ^ 64 - 4096 bytes has offset + length far
beyond the capacity, yet the 64-bit sum wraps to 0 at the capacity check,
validation passes, the lock is taken and the transfer is attempted, and
the write does not fail einval; so not every capacity-exceeding write is
rejected before data transfer. -/
theorem C6_counterexample :
    (2 ^ 64 - 4096) + LW.eld_mblen > pmd_layout_cap_get mpX LW
    ∧ (mblock_write mpX (some LW) (2 ^ 64 - 4096) Merr.ok).res = Merr.ok
    ∧ (mblock_write mpX (some LW) (2 ^ 64 - 4096) Merr.ok).res ≠ Merr.einval
    ∧ (mblock_write mpX (some LW) (2 ^ 64 - 4096) Merr.ok).transferAttempted
        = true
    ∧ (mblock_write mpX (some LW) (2 ^ 64 - 4096) Merr.ok).lockTaken = true := by
  decide

/-- C4: a zero-length write or read on a resolving handle returns success
with no lock taken and no transfer, for any object state, provided the
argument validation passes; validation runs first, so this is the most
the code guarantees. -/
theorem C4_zero_length_noop (mp : MpoolDescriptor)
    (mbh : Option PmdLayout) (layout : PmdLayout)
    (hres : mblock2layout mbh = some layout) :
    (∀ rwRes : Merr,
      mblock_rw_argcheck mp layout layout.eld_mblen MpoolOp.write 0 = Merr.ok →
      mblock_write mp mbh 0 rwRes = ⟨Merr.ok, some layout, false, false, none⟩)
    ∧ (∀ (boff : Nat) (rwRes : Merr),
      mblock_rw_argcheck mp layout boff MpoolOp.read 0 = Merr.ok →
      mblock_read mp mbh boff 0 rwRes = ⟨Merr.ok, some layout, false, false⟩) := by
  constructor
  · intro rwRes h
    simp [mblock_write, hres, h]
  · intro boff rwRes h
    simp [mblock_read, hres, h]

/-- C4 witness: concrete instances on a committed mblock, showing the
zero-length no-op is independent of the committed state. -/
theorem C4_zero_length_noop_witness :
    mblock_write mpX (some LC) 0 Merr.ok = ⟨Merr.ok, some LC, false, false, none⟩
    ∧ mblock_read mpX (some LC) 0 0 Merr.ok = ⟨Merr.ok, some LC, false, false⟩ :=
  ⟨(C4_zero_length_noop mpX (some LC) LC (by decide)).1 Merr.ok (by decide),
   (C4_zero_length_noop mpX (some LC) LC (by decide)).2 0 Merr.ok (by decide)⟩

/-- C4 counterexample: a zero-length read at page-aligned offset 4096 on an
uncommitted mblock with zero bytes written fails einval (the unwritten-tail
check fires before the zero-length shortcut), refuting success for all
offsets. -/
theorem C4_counterexample :
    (mblock_read mpX (some L0) 4096 0 Merr.ok).res = Merr.einval
    ∧ (mblock_read mpX (some L0) 4096 0 Merr.ok).res ≠ Merr.ok := by
  decide

/-- C3: on a resolving handle, a read with positive length that passes
argument validation fails eagain with no transfer while the mblock is
uncommitted; once committed, mblock_read never itself signals eagain (its
result is the validation error, success, or the raw transfer result). -/
theorem C3_read_gating (mp : MpoolDescriptor)
    (mbh : Option PmdLayout) (layout : PmdLayout)
    (hres : mblock2layout mbh = some layout) :
    (∀ (boff len : Nat) (rwRes : Merr),
      lyt_committed layout.eld_state = false → 0 < len →
      mblock_rw_argcheck mp layout boff MpoolOp.read len = Merr.ok →
      (mblock_read mp mbh boff len rwRes).res = Merr.eagain
      ∧ (mblock_read mp mbh boff len rwRes).transferAttempted = false)
    ∧ (∀ (boff len : Nat) (rwRes : Merr),
      lyt_committed layout.eld_state = true → rwRes ≠ Merr.eagain →
      (mblock_read mp mbh boff len rwRes).res ≠ Merr.eagain) := by
  constructor
  · intro boff len rwRes hcom hlen hchk
    simp [mblock_read, hres, hchk, hcom, Nat.pos_iff_ne_zero.mp hlen]
  · intro boff len rwRes hcom hrw
    rcases argcheck_ok_or_einval mp layout boff MpoolOp.read len with h | h
    · by_cases hlen : len = 0
      · subst hlen
        simp [mblock_read, hres, h]
      · simp [mblock_read, hres, h, hlen, hcom, hrw]
    · simp [mblock_read, hres, h]

/-- C3 witness: concrete instances of both parts of the theorem. -/
theorem C3_read_gating_witness :
    (mblock_read mpX (some LW) 0 4096 Merr.ok).res = Merr.eagain
    ∧ (mblock_read mpX (some LW) 0 4096 Merr.ok).transferAttempted = false
    ∧ (mblock_read mpX (some LC) 0 0 Merr.ok).res ≠ Merr.eagain :=
  ⟨((C3_read_gating mpX (some LW) LW (by decide)).1 0 4096 Merr.ok
      (by decide) (by decide) (by decide)).1,
   ((C3_read_gating mpX (some LW) LW (by decide)).1 0 4096 Merr.ok
      (by decide) (by decide) (by decide)).2,
   (C3_read_gating mpX (some LC) LC (by decide)).2 0 0 Merr.ok
      (by decide) (by decide)⟩

/-- C3 counterexample: a zero-length read on an uncommitted mblock returns
success, so not every read before commit fails eagain. -/
theorem C3_counterexample :
    lyt_committed L0.eld_state = false
    ∧ (mblock_read mpX (some L0) 0 0 Merr.ok).res = Merr.ok
    ∧ (mblock_read mpX (some L0) 0 0 Merr.ok).res ≠ Merr.eagain := by
  decide

/-- mblock_read never returns a modified layout: the source contains no
assignment to any layout field on the read path. -/
theorem mblock_read_layout_unchanged (mp : MpoolDescriptor)
    (mbh : Option PmdLayout) (layout : PmdLayout)
    (boff len : Nat) (rwRes : Merr)
    (hres : mblock2layout mbh = some layout) :
    (mblock_read mp mbh boff len rwRes).layoutAfter = some layout := by
  simp only [mblock_read, hres]
  split
  · rfl
  · split
    · rfl
    · split <;> rfl

/-- On a committed mblock every mblock_write path leaves the layout
unchanged. -/
theorem mblock_write_committed_layout_unchanged (mp : MpoolDescriptor)
    (mbh : Option PmdLayout) (layout : PmdLayout)
    (len : Nat) (rwRes : Merr)
    (hres : mblock2layout mbh = some layout)
    (hcom : lyt_committed layout.eld_state = true) :
    (mblock_write mp mbh len rwRes).layoutAfter = some layout := by
  simp only [mblock_write, hres]
  split
  · rfl
  · split
    · rfl
    · simp [hcom]

/-- mblock_commit never changes the written length or the capacity of the
layout: the only field the directory commit primitive touches is the state
flag word. -/
theorem mblock_commit_preserves_len_cap (mp : MpoolDescriptor)
    (mbh : Option PmdLayout) (layout : PmdLayout)
    (flushRes : Merr) (l2 : PmdLayout)
    (hres : mblock2layout mbh = some layout)
    (h2 : (mblock_commit mp mbh flushRes).layoutAfter = some l2) :
    l2.eld_mblen = layout.eld_mblen ∧ l2.cap = layout.cap := by
  have hc : ((pmd_obj_commit layout).2).eld_mblen = layout.eld_mblen
      ∧ ((pmd_obj_commit layout).2).cap = layout.cap := by
    unfold pmd_obj_commit
    split <;> simp
  simp only [mblock_commit, hres] at h2
  split at h2
  · split at h2
    · simp only [Option.some.injEq] at h2
      subst h2
      exact ⟨rfl, rfl⟩
    · simp only [Option.some.injEq] at h2
      subst h2
      exact hc
  · simp only [Option.some.injEq] at h2
    subst h2
    exact hc

/-- C1: on a resolving, uncommitted mblock, a successful write of positive
length advances eld_mblen by exactly the length, and the transfer is
issued at offset eld_mblen (the append offset); no other operation of the
module (failed writes, commit, read, abort, delete) changes eld_mblen. -/
theorem C1_append_advances (mp : MpoolDescriptor)
    (mbh : Option PmdLayout) (layout : PmdLayout)
    (hres : mblock2layout mbh = some layout) :
    (∀ (len : Nat) (rwRes : Merr),
      lyt_committed layout.eld_state = false → 0 < len →
      (mblock_write mp mbh len rwRes).res = Merr.ok →
      (mblock_write mp mbh len rwRes).layoutAfter =
        some { layout with eld_mblen := layout.eld_mblen + len }
      ∧ (mblock_write mp mbh len rwRes).transferOffset = some layout.eld_mblen)
    ∧ (∀ (len : Nat) (rwRes : Merr) (l2 : PmdLayout),
      (mblock_write mp mbh len rwRes).res ≠ Merr.ok →
      (mblock_write mp mbh len rwRes).layoutAfter = some l2 →
      l2.eld_mblen = layout.eld_mblen)
    ∧ (∀ (flushRes : Merr) (l2 : PmdLayout),
      (mblock_commit mp mbh flushRes).layoutAfter = some l2 →
      l2.eld_mblen = layout.eld_mblen)
    ∧ (∀ (boff len : Nat) (rwRes : Merr) (l2 : PmdLayout),
      (mblock_read mp mbh boff len rwRes).layoutAfter = some l2 →
      l2.eld_mblen = layout.eld_mblen)
    ∧ (∀ (dirRes : Merr) (l2 : PmdLayout),
      (mblock_abort mbh dirRes).2 = some l2 → l2.eld_mblen = layout.eld_mblen)
    ∧ (∀ (dirRes : Merr) (l2 : PmdLayout),
      (mblock_delete mbh dirRes).2 = some l2 → l2.eld_mblen = layout.eld_mblen) := by
  refine ⟨?_, ?_, ?_, ?_, ?_, ?_⟩
  · intro len rwRes hcom hlen hok
    rcases argcheck_ok_or_einval mp layout layout.eld_mblen MpoolOp.write len with h | h
    · have hlen0 : len ≠ 0 := Nat.pos_iff_ne_zero.mp hlen
      by_cases hrw : rwRes = Merr.ok
      · refine ⟨?_, ?_⟩ <;> simp [mblock_write, hres, h, hlen0, hcom, hrw]
      · simp [mblock_write, hres, h, hlen0, hcom, hrw] at hok
    · simp [mblock_write, hres, h] at hok
  · intro len rwRes l2 hne h2
    rcases argcheck_ok_or_einval mp layout layout.eld_mblen MpoolOp.write len with h | h
    · by_cases hlen : len = 0
      · subst hlen
        simp [mblock_write, hres, h] at h2
        subst h2
        rfl
      · by_cases hcom2 : lyt_committed layout.eld_state
        · simp [mblock_write, hres, h, hlen, hcom2] at h2
          subst h2
          rfl
        · by_cases hrw : rwRes = Merr.ok
          · simp [mblock_write, hres, h, hlen, hcom2, hrw] at hne
          · simp [mblock_write, hres, h, hlen, hcom2, hrw] at h2
            subst h2
            rfl
    · simp [mblock_write, hres, h] at h2
      subst h2
      rfl
  · intro flushRes l2 h2
    exact (mblock_commit_preserves_len_cap mp mbh layout flushRes l2 hres h2).1
  · intro boff len rwRes l2 h2
    rw [mblock_read_layout_unchanged mp mbh layout boff len rwRes hres] at h2
    simp only [Option.some.injEq] at h2
    subst h2
    rfl
  · intro dirRes l2 h2
    simp only [mblock_abort, hres] at h2
    simp only [Option.some.injEq] at h2
    subst h2
    rfl
  · intro dirRes l2 h2
    simp only [mblock_delete, hres] at h2
    simp only [Option.some.injEq] at h2
    subst h2
    rfl

/-- C1 witness: concrete instance of the first part of the theorem. -/
theorem C1_append_advances_witness :
    (mblock_write mpX (some L0) 4096 Merr.ok).layoutAfter =
      some { L0 with eld_mblen := L0.eld_mblen + 4096 }
    ∧ (mblock_write mpX (some L0) 4096 Merr.ok).transferOffset =
      some L0.eld_mblen :=
  (C1_append_advances mpX (some L0) L0 (by decide)).1 4096 Merr.ok
    (by decide) (by decide) (by decide)

/-- C2: on a resolving, committed mblock, a write of positive length that
passes argument validation fails ealready; every write leaves the layout
unchanged; reads leave the layout unchanged; and the written length and
capacity reported by the property snapshot are preserved by any further
commit. -/
theorem C2_commit_freezes (mp : MpoolDescriptor)
    (mbh : Option PmdLayout) (layout : PmdLayout)
    (hres : mblock2layout mbh = some layout)
    (hcom : lyt_committed layout.eld_state = true) :
    (∀ (len : Nat) (rwRes : Merr),
      mblock_rw_argcheck mp layout layout.eld_mblen MpoolOp.write len = Merr.ok →
      0 < len → (mblock_write mp mbh len rwRes).res = Merr.ealready)
    ∧ (∀ (len : Nat) (rwRes : Merr),
      (mblock_write mp mbh len rwRes).layoutAfter = some layout)
    ∧ (∀ (boff len : Nat) (rwRes : Merr),
      (mblock_read mp mbh boff len rwRes).layoutAfter = some layout)
    ∧ (∀ (flushRes : Merr) (l2 : PmdLayout),
      (mblock_commit mp mbh flushRes).layoutAfter = some l2 →
      (mblock_getprops_cmn mp l2).mpr_write_len =
        (mblock_getprops_cmn mp layout).mpr_write_len
      ∧ (mblock_getprops_cmn mp l2).mpr_alloc_cap =
        (mblock_getprops_cmn mp layout).mpr_alloc_cap) := by
  refine ⟨?_, ?_, ?_, ?_⟩
  · intro len rwRes hchk hlen
    simp [mblock_write, hres, hchk, Nat.pos_iff_ne_zero.mp hlen, hcom]
  · intro len rwRes
    exact mblock_write_committed_layout_unchanged mp mbh layout len rwRes hres hcom
  · intro boff len rwRes
    exact mblock_read_layout_unchanged mp mbh layout boff len rwRes hres
  · intro flushRes l2 h2
    have h3 := mblock_commit_preserves_len_cap mp mbh layout flushRes l2 hres h2
    constructor
    · simpa [mblock_getprops_cmn] using h3.1
    · simpa [mblock_getprops_cmn, pmd_layout_cap_get] using h3.2

/-- C2 witness: concrete instance of the ealready and frozen-layout parts. -/
theorem C2_commit_freezes_witness :
    (mblock_write mpX (some LC) 4096 Merr.ok).res = Merr.ealready
    ∧ (mblock_write mpX (some LC) 4096 Merr.ok).layoutAfter = some LC :=
  ⟨(C2_commit_freezes mpX (some LC) LC (by decide) (by decide)).1 4096 Merr.ok
      (by decide) (by decide),
   (C2_commit_freezes mpX (some LC) LC (by decide) (by decide)).2.1 4096 Merr.ok⟩

/-- C2 counterexample: a zero-length write on a committed mblock returns
success, so not every write after commit fails ealready. -/
theorem C2_counterexample :
    lyt_committed LC.eld_state = true
    ∧ (mblock_write mpX (some LC) 0 Merr.ok).res = Merr.ok
    ∧ (mblock_write mpX (some LC) 0 Merr.ok).res ≠ Merr.ealready := by
  decide
